import Mathlib

/-!
# Verification of the UR-agent tool functions

This file is a shallow embedding, in Lean 4, of the pure computational core of
the repository's tool functions:

* `src/tools/generate_user_requirements.py` — the `UserRequirement` /
  `FinalUserRequirementsOutput` pydantic schemas and the placeholder
  `generate_user_requirements` tool;
* `src/tools/update_user_requirements.py` — the `UpdateInstructions` /
  `UpdatedUserRequirementsOutput` schemas and the `update_user_requirements`
  merge-and-validate tool;
* `src/tools/extract_information.py` — the paginated Document-AI extraction
  loop `extract_information`.

Modelling conventions:

* Python dictionaries (`Dict[str, Any]`) are modelled as association lists
  `List (String × PyVal)` with first-occurrence lookup (`getKey`) and
  overwrite-or-append assignment (`setKey`), matching `dict` semantics for
  lists whose keys are distinct (a real `dict` can never carry a duplicate
  key; on a list with duplicates the model still processes assignments
  exactly as the Python statements would).
* `PyVal` covers the Python values that can reach these functions: strings,
  integers, `None`, and the four `str`-mixin enum members defined in
  `generate_user_requirements.py`.  A `str`-mixin enum member *is* a Python
  `str` whose string value is the member's `.value`, which is why
  string-typed contexts (`==` against a `str`, pydantic `str` fields) treat
  it as that string.
* pydantic validation of a `UserRequirement` from a dict is
  `validateUserRequirement`: every one of the eight declared fields must be
  present and parse (strings for `str` fields; for enum fields either the
  member itself or a string equal to one of the enumerated values); extra
  keys are ignored (pydantic's default `extra="ignore"`).  `ValueError` /
  `ValidationError` raising is modelled with `Except String`; the model keeps
  the human-readable prefix of each message and drops only the pydantic
  per-field error list interpolated into it.
* The Document-AI client and `process_document` network calls of
  `extract_information` are abstracted by two oracle parameters: `clientInit`
  (the exception message raised while building the client for a location, if
  any) and `svc start pageEnd` (the outcome of `process_document` on the
  request whose `individual_page_selector` holds pages
  `start, start+1, …, pageEnd`; the GCS URI, MIME type and processor name are
  fixed for the whole call so they are dropped from the oracle's arguments).
  The unbounded `while True:` loop is given explicit fuel: `none` means the
  fuel ran out before the loop finished, and `some d` means the Python loop
  finishes with result `d` (a returned dictionary).
-/

set_option maxHeartbeats 1000000

/-! ## Python values and dictionaries -/

/-- `RequirementTypeEnum` of `generate_user_requirements.py`. -/
inductive RequirementTypeEnum where
  | ORIGINAL
  | CHANGE_REQUEST
deriving DecidableEq, Repr

/-- The `str` value carried by each `RequirementTypeEnum` member. -/
def RequirementTypeEnum.val : RequirementTypeEnum → String
  | .ORIGINAL => "Original"
  | .CHANGE_REQUEST => "Change Request"

/-- `RequirementScopeEnum` of `generate_user_requirements.py`. -/
inductive RequirementScopeEnum where
  | IN_SCOPE
  | OUT_OF_SCOPE
deriving DecidableEq, Repr

/-- The `str` value carried by each `RequirementScopeEnum` member. -/
def RequirementScopeEnum.val : RequirementScopeEnum → String
  | .IN_SCOPE => "In-Scope"
  | .OUT_OF_SCOPE => "Out-Scope"

/-- `RequirementPriorityEnum` of `generate_user_requirements.py`. -/
inductive RequirementPriorityEnum where
  | HIGH
  | MEDIUM
  | LOW
deriving DecidableEq, Repr

/-- The `str` value carried by each `RequirementPriorityEnum` member. -/
def RequirementPriorityEnum.val : RequirementPriorityEnum → String
  | .HIGH => "High"
  | .MEDIUM => "Medium"
  | .LOW => "Low"

/-- `RequirementCoverageEnum` of `generate_user_requirements.py`. -/
inductive RequirementCoverageEnum where
  | YES
  | NO
deriving DecidableEq, Repr

/-- The `str` value carried by each `RequirementCoverageEnum` member. -/
def RequirementCoverageEnum.val : RequirementCoverageEnum → String
  | .YES => "Yes"
  | .NO => "No"

/-- The Python values that can appear inside the dictionaries handled by the
tools: strings, integers, `None`, and the four `str`-mixin enum member kinds. -/
inductive PyVal where
  | vStr (s : String)
  | vInt (n : Int)
  | vNone
  | vType (t : RequirementTypeEnum)
  | vScope (s : RequirementScopeEnum)
  | vPriority (p : RequirementPriorityEnum)
  | vCoverage (c : RequirementCoverageEnum)
deriving DecidableEq, Repr

/-- `d.get(k)` on a Python dict, as first-occurrence lookup. -/
def getKey {β : Type} : List (String × β) → String → Option β
  | [], _ => none
  | (k, v) :: rest, key => if k = key then some v else getKey rest key

/-- `d[k] = v` on a Python dict: overwrite the first occurrence of the key,
or append the pair when the key is absent. -/
def setKey {β : Type} : List (String × β) → String → β → List (String × β)
  | [], key, v => [(key, v)]
  | (k, w) :: rest, key, v =>
      if k = key then (key, v) :: rest else (k, w) :: setKey rest key v

/-- Python `x == rid` where `rid` is a `str`: a `str` (or `str`-mixin enum
member) compares by string value, every other value compares unequal. -/
def pyEqStr : PyVal → String → Bool
  | .vStr s, r => s == r
  | .vType t, r => t.val == r
  | .vScope s, r => s.val == r
  | .vPriority p, r => p.val == r
  | .vCoverage c, r => c.val == r
  | .vInt _, _ => false
  | .vNone, _ => false

/-! ## The `UserRequirement` schema and its pydantic validation -/

/-- The `UserRequirement` pydantic model of `generate_user_requirements.py`:
eight required fields, four of them enumerated. -/
structure UserRequirement where
  id : String
  name : String
  source : String
  type : RequirementTypeEnum
  scope : RequirementScopeEnum
  detail : String
  priority : RequirementPriorityEnum
  covered_usr : RequirementCoverageEnum
deriving DecidableEq, Repr

/-- `UserRequirement.model_fields`: the declared field names, in declaration
order. -/
def model_fields : List String :=
  ["id", "name", "source", "type", "scope", "detail", "priority", "covered_usr"]

/-- pydantic validation of a required `str` field: the looked-up value must be
present and be a `str` (a `str`-mixin enum member is a `str` with its
`.value`). -/
def parseStrV : Option PyVal → Option String
  | some (.vStr s) => some s
  | some (.vType t) => some t.val
  | some (.vScope s) => some s.val
  | some (.vPriority p) => some p.val
  | some (.vCoverage c) => some c.val
  | _ => none

/-- pydantic validation of the `type` field: the member itself, or a string
equal to one of the enumerated values. -/
def parseTypeV : Option PyVal → Option RequirementTypeEnum
  | some (.vType t) => some t
  | some (.vStr s) =>
      if s = "Original" then some .ORIGINAL
      else if s = "Change Request" then some .CHANGE_REQUEST
      else none
  | _ => none

/-- pydantic validation of the `scope` field. -/
def parseScopeV : Option PyVal → Option RequirementScopeEnum
  | some (.vScope s) => some s
  | some (.vStr s) =>
      if s = "In-Scope" then some .IN_SCOPE
      else if s = "Out-Scope" then some .OUT_OF_SCOPE
      else none
  | _ => none

/-- pydantic validation of the `priority` field. -/
def parsePriorityV : Option PyVal → Option RequirementPriorityEnum
  | some (.vPriority p) => some p
  | some (.vStr s) =>
      if s = "High" then some .HIGH
      else if s = "Medium" then some .MEDIUM
      else if s = "Low" then some .LOW
      else none
  | _ => none

/-- pydantic validation of the `covered_usr` field. -/
def parseCoverageV : Option PyVal → Option RequirementCoverageEnum
  | some (.vCoverage c) => some c
  | some (.vStr s) =>
      if s = "Yes" then some .YES
      else if s = "No" then some .NO
      else none
  | _ => none

/-- `UserRequirement(**d)`: validate a dictionary against the schema.  Every
declared field must be present and parse; extra keys are ignored.  `none`
models a raised `ValidationError`. -/
def validateUserRequirement (d : List (String × PyVal)) : Option UserRequirement :=
  (parseStrV (getKey d "id")).bind fun i =>
  (parseStrV (getKey d "name")).bind fun n =>
  (parseStrV (getKey d "source")).bind fun src =>
  (parseTypeV (getKey d "type")).bind fun ty =>
  (parseScopeV (getKey d "scope")).bind fun sc =>
  (parseStrV (getKey d "detail")).bind fun de =>
  (parsePriorityV (getKey d "priority")).bind fun pr =>
  (parseCoverageV (getKey d "covered_usr")).bind fun cov =>
  some ⟨i, n, src, ty, sc, de, pr, cov⟩

/-! ## `update_user_requirements` -/

/-- The `UpdateInstructions` pydantic model of `update_user_requirements.py`. -/
structure UpdateInstructions where
  requirement_id_to_update : String
  updated_fields : List (String × PyVal)
  reason_for_update : Option String
deriving DecidableEq, Repr

/-- The `UpdatedUserRequirementsOutput` pydantic model of
`update_user_requirements.py`. -/
structure UpdatedUserRequirementsOutput where
  updated_requirement : UserRequirement
  update_summary : String
  previous_version_snapshot : UserRequirement
deriving DecidableEq, Repr

/-- `req_dict.get("id") == update_instructions.requirement_id_to_update`:
the search predicate of the find loop (a missing `"id"` key yields `None`,
which is `==`-unequal to any `str`). -/
def matchesId (d : List (String × PyVal)) (rid : String) : Bool :=
  match getKey d "id" with
  | some v => pyEqStr v rid
  | none => false

/-- The field-update loop of `update_user_requirements`: for each
`(field_name, new_value)` of `updated_fields`, in iteration order, assign
`updated_data[field_name] = new_value` when `field_name` is a declared
`UserRequirement` field, and skip it otherwise. -/
def applyUpdates (d : List (String × PyVal)) : List (String × PyVal) → List (String × PyVal)
  | [] => d
  | (f, v) :: rest =>
      if f ∈ model_fields then applyUpdates (setKey d f v) rest
      else applyUpdates d rest

/-- `previous_requirement_model.model_dump().get(field_name)` followed by the
`Enum → .value` display conversion: the string shown for a field of the
previous model in the change log (only declared field names are looked up). -/
def fieldDisplay (r : UserRequirement) : String → Option String
  | "id" => some r.id
  | "name" => some r.name
  | "source" => some r.source
  | "type" => some r.type.val
  | "scope" => some r.scope.val
  | "detail" => some r.detail
  | "priority" => some r.priority.val
  | "covered_usr" => some r.covered_usr.val
  | _ => none

/-- `str()` of an `Option String` in an f-string: Python shows `None` for a
missing value. -/
def optDisplay : Option String → String
  | some s => s
  | none => "None"

/-- The f-string display of a `new_value` after the `Enum → .value`
conversion of the update loop. -/
def displayNew : PyVal → String
  | .vStr s => s
  | .vInt n => toString n
  | .vNone => "None"
  | .vType t => t.val
  | .vScope s => s.val
  | .vPriority p => p.val
  | .vCoverage c => c.val

/-- The `changed_fields_log` built by the update loop: one entry per
`updated_fields` item whose key is a declared field. -/
def changedLog (prev : UserRequirement) (fields : List (String × PyVal)) : List String :=
  fields.filterMap fun fv =>
    if fv.1 ∈ model_fields then
      some (String.append (String.append (String.append (String.append
        (String.append (String.append "'" fv.1) "' from '")
        (optDisplay (fieldDisplay prev fv.1))) "' to '") (displayNew fv.2)) "'")
    else none

/-- `update_instructions.reason_for_update or 'Not specified'`: Python `or`
replaces a falsy reason (`None` or the empty string) with the default. -/
def reasonDisplay : Option String → String
  | some r => if r = "" then "Not specified" else r
  | none => "Not specified"

/-- The `summary_changes_str` selection of `update_user_requirements`. -/
def summaryChanges (log : List String) (fields : List (String × PyVal)) : String :=
  if log ≠ [] then String.intercalate ", " log
  else if fields ≠ [] then
    "Updates were specified but may not have resulted in changes (e.g., invalid field names skipped, or new value matched old value)."
  else "No fields were specified for update."

/-- The `update_summary_message` f-string of `update_user_requirements`. -/
def updateSummaryMessage (rid : String) (scs : String) (reason : Option String) : String :=
  String.append (String.append (String.append (String.append
    (String.append "Update processed for requirement ID: " rid) ". Changes: ") scs)
    (String.append ". Reason: " (reasonDisplay reason))) "."

/-- The `update_user_requirements` tool of `update_user_requirements.py`.

`Except.error` models a raised `ValueError` (keeping the message prefix and
dropping the interpolated pydantic error list).  The unused `tool_context`
parameter is omitted.  The find loop deep-copies the first matching dict and
raises "not found" when no dict matches **or** when the matching dict is
falsy, i.e. empty (`if not found_req_dict_original`); both deep copies are
value copies in this pure model (the heap model below accounts for them). -/
def update_user_requirements
    (current_requirements_list : List (List (String × PyVal)))
    (update_instructions : UpdateInstructions) :
    Except String UpdatedUserRequirementsOutput :=
  let rid := update_instructions.requirement_id_to_update
  match current_requirements_list.find? (fun d => matchesId d rid) with
  | none =>
      .error (String.append (String.append "Requirement ID '" rid)
        "' not found in current requirements list.")
  | some found =>
      if found.isEmpty then
        .error (String.append (String.append "Requirement ID '" rid)
          "' not found in current requirements list.")
      else
        match validateUserRequirement found with
        | none =>
            .error (String.append (String.append "Original requirement data for ID '" rid)
              "' is invalid.")
        | some previous_requirement_model =>
            let updated_data := applyUpdates found update_instructions.updated_fields
            let changed_fields_log :=
              changedLog previous_requirement_model update_instructions.updated_fields
            match validateUserRequirement updated_data with
            | none =>
                .error (String.append (String.append "LLM-provided updates for requirement ID '" rid)
                  "' resulted in invalid data.")
            | some updated_requirement_model =>
                .ok ⟨updated_requirement_model,
                     updateSummaryMessage rid
                       (summaryChanges changed_fields_log update_instructions.updated_fields)
                       update_instructions.reason_for_update,
                     previous_requirement_model⟩

/-! ## `generate_user_requirements` -/

/-- The `FinalUserRequirementsOutput` pydantic model of
`generate_user_requirements.py`. -/
structure FinalUserRequirementsOutput where
  document_id : Option String
  requirements_list : List UserRequirement
  generation_summary : Option String
deriving DecidableEq, Repr

/-- pydantic validation of the `Optional[str]` field `document_id`: a `str`
passes, `None` (or an absent value) passes as `None`, anything else raises. -/
def parseOptStrV : Option PyVal → Option (Option String)
  | none => some none
  | some .vNone => some none
  | some v => (parseStrV (some v)).map some

/-- The placeholder `generate_user_requirements` tool of
`generate_user_requirements.py`: an empty `requirements_list`, a fixed
`generation_summary`, and `document_id` taken from
`extracted_information.get("source_document_id")` (whose value must satisfy
the `Optional[str]` validation of the output model, else pydantic raises). -/
def generate_user_requirements
    (extracted_information : List (String × PyVal))
    (generation_guidelines : Option String) :
    Except String FinalUserRequirementsOutput :=
  match parseOptStrV (getKey extracted_information "source_document_id") with
  | none => .error "document_id: Input should be a valid string"
  | some did =>
      .ok ⟨did, [],
           some "Placeholder: LLM to provide summary of UR generation. Ensure all UserRequirement fields are populated."⟩

/-! ## `extract_information` -/

/-- The outcome of one `client.process_document` call: a `Document` with its
`text` (possibly empty) and its number of returned `pages`, or a raised
exception with message `msg`. -/
inductive ChunkOutcome where
  | success (text : String) (pages : Nat)
  | failure (msg : String)
deriving DecidableEq, Repr

/-- `needle` occurs as a contiguous run inside `hay` (Python `needle in hay`
on strings, over the character lists). -/
def startsWithL : List Char → List Char → Bool
  | [], _ => true
  | _ :: _, [] => false
  | a :: as, b :: bs => a == b && startsWithL as bs

/-- Substring containment on character lists. -/
def hasSub (needle : List Char) : List Char → Bool
  | [] => startsWithL needle []
  | b :: bs => startsWithL needle (b :: bs) || hasSub needle bs

/-- `str.lower()` (adequate for the ASCII needles the code compares with). -/
def strLower (s : String) : String := ⟨s.data.map Char.toLower⟩

/-- Python `s.startswith(pre)`, over the character lists. -/
def pyStartsWith (s pre : String) : Bool := startsWithL pre.data s.data

/-- `"page range" in str(e).lower() or "out of range" in str(e).lower()`:
the end-of-document signal recognised by the pagination loop's handler. -/
def isOutOfRange (msg : String) : Bool :=
  hasSub "page range".data (strLower msg).data || hasSub "out of range".data (strLower msg).data

/-- The dictionary returned once the loop has finished: `{"extracted_text": ""}`
when no chunk yielded text, else the concatenation (`"".join`) of the
accumulated chunk texts. -/
def finishDict (all_extracted_text : List String) : List (String × String) :=
  if all_extracted_text.isEmpty then [("extracted_text", "")]
  else [("extracted_text", String.join all_extracted_text)]

/-- The `while True:` pagination loop of `extract_information`, with explicit
fuel (`none` = fuel exhausted before the Python loop finished).  One iteration
requests pages `current_page_start … current_page_start + chunkSize - 1` from
the `process_document` oracle `svc` and then follows the source's branch
structure: an empty chunk (no text and no pages) breaks; a chunk with text
appends it; a chunk with no pages or fewer pages than `chunkSize` breaks; an
exception whose message signals an out-of-range page request breaks; any other
exception returns an `"error"` dictionary; otherwise the loop continues at
`page_end + 1`. -/
def extractLoop (svc : Nat → Nat → ChunkOutcome) (chunkSize : Nat) :
    Nat → Nat → List String → Option (List (String × String))
  | 0, _, _ => none
  | fuel + 1, current_page_start, all_extracted_text =>
      let page_end := current_page_start + chunkSize - 1
      match svc current_page_start page_end with
      | .success text pages =>
          if text = "" ∧ pages = 0 then some (finishDict all_extracted_text)
          else
            let acc2 := if text = "" then all_extracted_text else all_extracted_text ++ [text]
            if pages = 0 ∨ pages < chunkSize then some (finishDict acc2)
            else extractLoop svc chunkSize fuel (page_end + 1) acc2
      | .failure msg =>
          if isOutOfRange msg then some (finishDict all_extracted_text)
          else
            some [("error",
              String.append (String.append (String.append (String.append
                (String.append "An API error occurred during document processing for pages "
                  (toString current_page_start)) "-") (toString page_end)) ": ") msg)]

/-- The `extract_information` tool of `extract_information.py`.

`project_id` / `processor_id` are `Option String` (`none` = Python `None`);
`clientInit location` is the exception message raised while constructing the
`DocumentProcessorServiceClient` for that location, if any; `svc` is the
`process_document` oracle (see `extractLoop`); `mime_type` and `gcs_uri` are
carried in every request unchanged, so their effect lives inside `svc`.
The result is `some d` when the Python call returns the dictionary `d`, and
`none` when the given fuel does not cover the pagination loop's iterations. -/
def extract_information (gcs_uri : String) (project_id : Option String)
    (location : String) (processor_id : Option String) (mime_type : String)
    (page_chunk_size : Int) (clientInit : String → Option String)
    (svc : Nat → Nat → ChunkOutcome) (fuel : Nat) :
    Option (List (String × String)) :=
  if project_id = none ∨ processor_id = none then
    some [("error", "Project ID or Processor ID are not configured. Please provide them as arguments or set the defaults.")]
  else if ¬ (pyStartsWith gcs_uri "gs://") then
    some [("error", "Invalid GCS URI. It must start with 'gs://'.")]
  else if page_chunk_size ≤ 0 then
    some [("error", "page_chunk_size must be a positive integer.")]
  else
    match clientInit location with
    | some e => some [("error", String.append "Failed to initialize Document AI client: " e)]
    | none => extractLoop svc page_chunk_size.toNat fuel 1 []

/-! ## A heap model of `update_user_requirements` (reference semantics)

The mutation-freedom claim about `update_user_requirements` is about Python's
reference semantics: the caller's list holds references to dict objects, and
the function must not write through them.  We model the dict heap as a store
`Nat → List (String × PyVal)` with a fresh-address counter; the caller's list
is a list of addresses.  `copy.deepcopy` allocates a fresh address holding a
value copy; `updated_data[field_name] = new_value` writes through the
`updated_data` address.  The computation mirrors `update_user_requirements`
statement by statement. -/

/-- The heap of dict objects: a store of dict values indexed by address, and
the next fresh address.  Every address `≥ next` is unallocated. -/
structure Heap where
  store : Nat → List (String × PyVal)
  next : Nat

/-- Allocate a fresh dict holding `v` (the effect of `copy.deepcopy`). -/
def Heap.alloc (h : Heap) (v : List (String × PyVal)) : Heap × Nat :=
  (⟨fun a => if a = h.next then v else h.store a, h.next + 1⟩, h.next)

/-- Write the dict value at address `a` (the effect of `d[k] = v` through a
reference). -/
def Heap.write (h : Heap) (a : Nat) (v : List (String × PyVal)) : Heap :=
  ⟨fun x => if x = a then v else h.store x, h.next⟩

/-- The field-update loop acting through the `updated_data` reference: each
iteration with a declared field name performs one in-place dict assignment. -/
def applyUpdatesHeap (h : Heap) (a : Nat) : List (String × PyVal) → Heap
  | [] => h
  | (f, v) :: rest =>
      if f ∈ model_fields then
        applyUpdatesHeap (h.write a (setKey (h.store a) f v)) a rest
      else applyUpdatesHeap h a rest

/-- `update_user_requirements` over the dict heap: `current_requirements_list`
is a list of addresses of the caller's dicts.  Returns the result (raised
`ValueError` or output model) together with the final heap. -/
def update_user_requirements_heap (h : Heap) (current_requirements_list : List Nat)
    (update_instructions : UpdateInstructions) :
    Except String UpdatedUserRequirementsOutput × Heap :=
  let rid := update_instructions.requirement_id_to_update
  match current_requirements_list.find? (fun a => matchesId (h.store a) rid) with
  | none =>
      (.error (String.append (String.append "Requirement ID '" rid)
        "' not found in current requirements list."), h)
  | some a =>
      let found := h.store a
      let (h1, _cAddr) := h.alloc found
      if found.isEmpty then
        (.error (String.append (String.append "Requirement ID '" rid)
          "' not found in current requirements list."), h1)
      else
        match validateUserRequirement found with
        | none =>
            (.error (String.append (String.append "Original requirement data for ID '" rid)
              "' is invalid."), h1)
        | some previous_requirement_model =>
            let (h2, uAddr) := h1.alloc found
            let h3 := applyUpdatesHeap h2 uAddr update_instructions.updated_fields
            let changed_fields_log :=
              changedLog previous_requirement_model update_instructions.updated_fields
            match validateUserRequirement (h3.store uAddr) with
            | none =>
                (.error (String.append (String.append "LLM-provided updates for requirement ID '" rid)
                  "' resulted in invalid data."), h3)
            | some updated_requirement_model =>
                (.ok ⟨updated_requirement_model,
                      updateSummaryMessage rid
                        (summaryChanges changed_fields_log update_instructions.updated_fields)
                        update_instructions.reason_for_update,
                      previous_requirement_model⟩, h3)

/-! ## Dictionary and validation lemmas -/

theorem getKey_setKey_ne {β : Type} (d : List (String × β)) (k f : String) (v : β)
    (h : k ≠ f) : getKey (setKey d k v) f = getKey d f := by
  induction d with
  | nil => simp [setKey, getKey, h]
  | cons p rest ih =>
      obtain ⟨kk, w⟩ := p
      by_cases hk : kk = k
      · subst hk
        simp [setKey, getKey, h]
      · by_cases hf : kk = f
        · simp [setKey, hk, getKey, hf, Ne.symm h]
        · simp [setKey, hk, getKey, hf, ih]

theorem getKey_applyUpdates (d : List (String × PyVal)) (fields : List (String × PyVal))
    (f : String) (h : f ∉ fields.map Prod.fst) :
    getKey (applyUpdates d fields) f = getKey d f := by
  induction fields generalizing d with
  | nil => rfl
  | cons fv rest ih =>
      obtain ⟨g, v⟩ := fv
      simp only [List.map_cons, List.mem_cons, not_or] at h
      obtain ⟨hgf, hrest⟩ := h
      by_cases hm : g ∈ model_fields
      · simp only [applyUpdates, if_pos hm]
        rw [ih _ hrest, getKey_setKey_ne _ _ _ _ (Ne.symm hgf)]
      · simp only [applyUpdates, if_neg hm]
        exact ih _ hrest

/-- Decomposition of a successful `UserRequirement(**d)` validation into its
eight per-field parses. -/
theorem validateUserRequirement_fields (d : List (String × PyVal)) (r : UserRequirement)
    (h : validateUserRequirement d = some r) :
    parseStrV (getKey d "id") = some r.id ∧
    parseStrV (getKey d "name") = some r.name ∧
    parseStrV (getKey d "source") = some r.source ∧
    parseTypeV (getKey d "type") = some r.type ∧
    parseScopeV (getKey d "scope") = some r.scope ∧
    parseStrV (getKey d "detail") = some r.detail ∧
    parsePriorityV (getKey d "priority") = some r.priority ∧
    parseCoverageV (getKey d "covered_usr") = some r.covered_usr := by
  simp only [validateUserRequirement, Option.bind_eq_some] at h
  obtain ⟨i, hi, n, hn, src, hsrc, ty, hty, sc, hsc, de, hde, pr, hpr, cov, hcov, hr⟩ := h
  rw [Option.some_inj] at hr
  subst hr
  exact ⟨hi, hn, hsrc, hty, hsc, hde, hpr, hcov⟩

/-- Decomposition of a successful `update_user_requirements` run: the first
matching record is found, it validates to the previous snapshot, and its
merge with `updated_fields` validates to the updated requirement. -/
theorem update_ok_spec (l : List (List (String × PyVal))) (instr : UpdateInstructions)
    (out : UpdatedUserRequirementsOutput)
    (h : update_user_requirements l instr = .ok out) :
    ∃ found, l.find? (fun d => matchesId d instr.requirement_id_to_update) = some found ∧
      validateUserRequirement found = some out.previous_version_snapshot ∧
      validateUserRequirement (applyUpdates found instr.updated_fields) =
        some out.updated_requirement := by
  simp only [update_user_requirements] at h
  split at h
  · cases h
  · rename_i found hf
    split at h
    · cases h
    · split at h
      · cases h
      · rename_i prev hv
        split at h
        · cases h
        · rename_i updr hu
          cases h
          exact ⟨found, hf, hv, hu⟩

/-! ## Concrete example inputs (used by the witnesses below) -/

/-- A well-formed `UserRequirement` dictionary. -/
def exReq : List (String × PyVal) :=
  [("id", .vStr "USR0001"), ("name", .vStr "Login"), ("source", .vStr "spec.pdf"),
   ("type", .vStr "Original"), ("scope", .vStr "In-Scope"),
   ("detail", .vStr "User can log in."), ("priority", .vStr "High"),
   ("covered_usr", .vStr "No")]

/-- Update instructions touching only the `priority` field of `USR0001`. -/
def exInstr : UpdateInstructions :=
  ⟨"USR0001", [("priority", .vStr "Low")], none⟩

/-- C1: when `update_user_requirements` returns successfully, every
`UserRequirement` field whose name is not a key of
`update_instructions.updated_fields` has the same value in the returned
`updated_requirement` and `previous_version_snapshot` (so only fields named in
`updated_fields` — and declared in the schema — can differ). -/
theorem update_user_requirements_frame
    (l : List (List (String × PyVal))) (instr : UpdateInstructions)
    (out : UpdatedUserRequirementsOutput)
    (h : update_user_requirements l instr = .ok out) :
    ("id" ∉ instr.updated_fields.map Prod.fst →
        out.updated_requirement.id = out.previous_version_snapshot.id) ∧
    ("name" ∉ instr.updated_fields.map Prod.fst →
        out.updated_requirement.name = out.previous_version_snapshot.name) ∧
    ("source" ∉ instr.updated_fields.map Prod.fst →
        out.updated_requirement.source = out.previous_version_snapshot.source) ∧
    ("type" ∉ instr.updated_fields.map Prod.fst →
        out.updated_requirement.type = out.previous_version_snapshot.type) ∧
    ("scope" ∉ instr.updated_fields.map Prod.fst →
        out.updated_requirement.scope = out.previous_version_snapshot.scope) ∧
    ("detail" ∉ instr.updated_fields.map Prod.fst →
        out.updated_requirement.detail = out.previous_version_snapshot.detail) ∧
    ("priority" ∉ instr.updated_fields.map Prod.fst →
        out.updated_requirement.priority = out.previous_version_snapshot.priority) ∧
    ("covered_usr" ∉ instr.updated_fields.map Prod.fst →
        out.updated_requirement.covered_usr = out.previous_version_snapshot.covered_usr) := by
  obtain ⟨found, hf, hv, hu⟩ := update_ok_spec l instr out h
  obtain ⟨p1, p2, p3, p4, p5, p6, p7, p8⟩ := validateUserRequirement_fields _ _ hv
  obtain ⟨q1, q2, q3, q4, q5, q6, q7, q8⟩ := validateUserRequirement_fields _ _ hu
  refine ⟨fun hm => ?_, fun hm => ?_, fun hm => ?_, fun hm => ?_,
          fun hm => ?_, fun hm => ?_, fun hm => ?_, fun hm => ?_⟩
  · rw [getKey_applyUpdates _ _ _ hm, p1] at q1
    exact (Option.some_inj.mp q1).symm
  · rw [getKey_applyUpdates _ _ _ hm, p2] at q2
    exact (Option.some_inj.mp q2).symm
  · rw [getKey_applyUpdates _ _ _ hm, p3] at q3
    exact (Option.some_inj.mp q3).symm
  · rw [getKey_applyUpdates _ _ _ hm, p4] at q4
    exact (Option.some_inj.mp q4).symm
  · rw [getKey_applyUpdates _ _ _ hm, p5] at q5
    exact (Option.some_inj.mp q5).symm
  · rw [getKey_applyUpdates _ _ _ hm, p6] at q6
    exact (Option.some_inj.mp q6).symm
  · rw [getKey_applyUpdates _ _ _ hm, p7] at q7
    exact (Option.some_inj.mp q7).symm
  · rw [getKey_applyUpdates _ _ _ hm, p8] at q8
    exact (Option.some_inj.mp q8).symm

/-- Witness for C1: a concrete successful update of `priority` leaves `name`
untouched. -/
theorem update_user_requirements_frame_witness :
    ∃ out, update_user_requirements [exReq] exInstr = Except.ok out ∧
      out.updated_requirement.name = out.previous_version_snapshot.name := by
  cases h : update_user_requirements [exReq] exInstr with
  | error e =>
      have hok : (update_user_requirements [exReq] exInstr).isOk = true := by decide
      rw [h] at hok
      simp [Except.isOk, Except.toBool] at hok
  | ok out =>
      exact ⟨out, rfl, (update_user_requirements_frame [exReq] exInstr out h).2.1 (by decide)⟩

/-! ## Evaluation lemmas for `update_user_requirements` -/

/-- A dict selected by the find loop is non-empty (its `"id"` matched, so it
has at least that key); hence the Python falsiness test
`if not found_req_dict_original` coincides with "no match". -/
theorem find?_matchesId_isEmpty (l : List (List (String × PyVal))) (rid : String)
    (found : List (String × PyVal))
    (hf : l.find? (fun d => matchesId d rid) = some found) : found.isEmpty = false := by
  have hp := List.find?_some hf
  cases found with
  | nil => simp [matchesId, getKey] at hp
  | cons a as => rfl

theorem update_error_of_none (l : List (List (String × PyVal))) (instr : UpdateInstructions)
    (hf : l.find? (fun d => matchesId d instr.requirement_id_to_update) = none) :
    update_user_requirements l instr =
      .error (String.append (String.append "Requirement ID '" instr.requirement_id_to_update)
        "' not found in current requirements list.") := by
  simp only [update_user_requirements, hf]

theorem update_error_of_invalid_found (l : List (List (String × PyVal)))
    (instr : UpdateInstructions) (found : List (String × PyVal))
    (hf : l.find? (fun d => matchesId d instr.requirement_id_to_update) = some found)
    (hv : validateUserRequirement found = none) :
    update_user_requirements l instr =
      .error (String.append (String.append "Original requirement data for ID '"
        instr.requirement_id_to_update) "' is invalid.") := by
  simp only [update_user_requirements, hf,
    find?_matchesId_isEmpty l instr.requirement_id_to_update found hf, hv,
    Bool.false_eq_true, if_false]

theorem update_error_of_invalid_merged (l : List (List (String × PyVal)))
    (instr : UpdateInstructions) (found : List (String × PyVal)) (prev : UserRequirement)
    (hf : l.find? (fun d => matchesId d instr.requirement_id_to_update) = some found)
    (hv : validateUserRequirement found = some prev)
    (hu : validateUserRequirement (applyUpdates found instr.updated_fields) = none) :
    update_user_requirements l instr =
      .error (String.append (String.append "LLM-provided updates for requirement ID '"
        instr.requirement_id_to_update) "' resulted in invalid data.") := by
  simp only [update_user_requirements, hf,
    find?_matchesId_isEmpty l instr.requirement_id_to_update found hf, hv, hu,
    Bool.false_eq_true, if_false]

theorem update_eq_ok (l : List (List (String × PyVal))) (instr : UpdateInstructions)
    (found : List (String × PyVal)) (prev updr : UserRequirement)
    (hf : l.find? (fun d => matchesId d instr.requirement_id_to_update) = some found)
    (hv : validateUserRequirement found = some prev)
    (hu : validateUserRequirement (applyUpdates found instr.updated_fields) = some updr) :
    update_user_requirements l instr =
      .ok ⟨updr,
           updateSummaryMessage instr.requirement_id_to_update
             (summaryChanges (changedLog prev instr.updated_fields) instr.updated_fields)
             instr.reason_for_update,
           prev⟩ := by
  simp only [update_user_requirements, hf,
    find?_matchesId_isEmpty l instr.requirement_id_to_update found hf, hv, hu,
    Bool.false_eq_true, if_false]

/-- Keys of `updated_fields` that are not declared `UserRequirement` fields are
skipped: dropping them from the update list does not change the merged dict. -/
theorem applyUpdates_filter (d : List (String × PyVal)) (fields : List (String × PyVal)) :
    applyUpdates d (fields.filter fun fv => decide (fv.1 ∈ model_fields)) =
      applyUpdates d fields := by
  induction fields generalizing d with
  | nil => rfl
  | cons fv rest ih =>
      obtain ⟨g, v⟩ := fv
      by_cases hm : g ∈ model_fields
      · simp only [List.filter, hm, decide_True, applyUpdates, if_pos hm]
        exact ih _
      · simp only [List.filter, hm, decide_False, applyUpdates, if_neg hm]
        exact ih _

/-- C2: `update_user_requirements` raises `ValueError` exactly when no record
matches the requirement id, or the first matching record fails
`UserRequirement` validation, or its merge with `updated_fields` fails
validation; unknown keys of `updated_fields` are skipped (filtering them away
leaves the merge unchanged); and every non-error run returns an
`UpdatedUserRequirementsOutput`. -/
theorem update_user_requirements_error_iff
    (l : List (List (String × PyVal))) (instr : UpdateInstructions) :
    ((∃ msg, update_user_requirements l instr = .error msg) ↔
      ((∀ d ∈ l, matchesId d instr.requirement_id_to_update = false) ∨
       (∃ d, l.find? (fun d' => matchesId d' instr.requirement_id_to_update) = some d ∧
          validateUserRequirement d = none) ∨
       (∃ d, l.find? (fun d' => matchesId d' instr.requirement_id_to_update) = some d ∧
          validateUserRequirement (applyUpdates d instr.updated_fields) = none))) ∧
    (∀ d : List (String × PyVal),
       applyUpdates d (instr.updated_fields.filter fun fv => decide (fv.1 ∈ model_fields)) =
         applyUpdates d instr.updated_fields) ∧
    ((¬ ∃ msg, update_user_requirements l instr = .error msg) →
       ∃ out, update_user_requirements l instr = .ok out) := by
  refine ⟨⟨?_, ?_⟩, fun d => applyUpdates_filter d instr.updated_fields, ?_⟩
  · rintro ⟨msg, hmsg⟩
    cases hf : l.find? (fun d' => matchesId d' instr.requirement_id_to_update) with
    | none =>
        refine Or.inl fun d hd => ?_
        have := List.find?_eq_none.mp hf d hd
        simpa using this
    | some found =>
        cases hv : validateUserRequirement found with
        | none => exact Or.inr (Or.inl ⟨found, rfl, hv⟩)
        | some prev =>
            cases hu : validateUserRequirement (applyUpdates found instr.updated_fields) with
            | none => exact Or.inr (Or.inr ⟨found, rfl, hu⟩)
            | some updr =>
                rw [update_eq_ok l instr found prev updr hf hv hu] at hmsg
                cases hmsg
  · rintro (hall | ⟨found, hf, hv⟩ | ⟨found, hf, hu⟩)
    · exact ⟨_, update_error_of_none l instr
        (List.find?_eq_none.mpr fun d hd => by simp [hall d hd])⟩
    · exact ⟨_, update_error_of_invalid_found l instr found hf hv⟩
    · cases hv : validateUserRequirement found with
      | none => exact ⟨_, update_error_of_invalid_found l instr found hf hv⟩
      | some prev => exact ⟨_, update_error_of_invalid_merged l instr found prev hf hv hu⟩
  · intro hne
    cases hres : update_user_requirements l instr with
    | error msg => exact absurd ⟨msg, hres⟩ hne
    | ok out => exact ⟨out, rfl⟩

/-! ## Enumerated-field ranges (C3) -/

/-- The four enumerated fields of a `UserRequirement` take their values in the
fixed string sets of the schema. -/
def enumFieldsOk (r : UserRequirement) : Prop :=
  r.type.val ∈ (["Original", "Change Request"] : List String) ∧
  r.scope.val ∈ (["In-Scope", "Out-Scope"] : List String) ∧
  r.priority.val ∈ (["High", "Medium", "Low"] : List String) ∧
  r.covered_usr.val ∈ (["Yes", "No"] : List String)

theorem enumFieldsOk_all (r : UserRequirement) : enumFieldsOk r := by
  refine ⟨?_, ?_, ?_, ?_⟩
  · cases h : r.type <;> simp [RequirementTypeEnum.val]
  · cases h : r.scope <;> simp [RequirementScopeEnum.val]
  · cases h : r.priority <;> simp [RequirementPriorityEnum.val]
  · cases h : r.covered_usr <;> simp [RequirementCoverageEnum.val]

/-- C3: every `UserRequirement` the program returns — `updated_requirement`
and `previous_version_snapshot` from `update_user_requirements`, and every
element of `requirements_list` from `generate_user_requirements` — has its
enumerated fields inside the fixed sets (`type` in {Original, Change Request},
`scope` in {In-Scope, Out-Scope}, `priority` in {High, Medium, Low},
`covered_usr` in {Yes, No}); validation makes a value outside these sets
unrepresentable in a returned requirement. -/
theorem returned_requirement_enums_in_range :
    (∀ (l : List (List (String × PyVal))) (instr : UpdateInstructions)
       (out : UpdatedUserRequirementsOutput),
       update_user_requirements l instr = Except.ok out →
         enumFieldsOk out.updated_requirement ∧
         enumFieldsOk out.previous_version_snapshot) ∧
    (∀ (info : List (String × PyVal)) (g : Option String)
       (out : FinalUserRequirementsOutput),
       generate_user_requirements info g = Except.ok out →
         ∀ r ∈ out.requirements_list, enumFieldsOk r) :=
  ⟨fun _ _ _ _ => ⟨enumFieldsOk_all _, enumFieldsOk_all _⟩,
   fun _ _ _ _ r _ => enumFieldsOk_all r⟩

/-- Witness for C3: a concrete successful update yields in-range enums. -/
theorem returned_requirement_enums_in_range_witness :
    ∃ out, update_user_requirements [exReq] exInstr = Except.ok out ∧
      enumFieldsOk out.updated_requirement := by
  cases h : update_user_requirements [exReq] exInstr with
  | error e =>
      have hok : (update_user_requirements [exReq] exInstr).isOk = true := by decide
      rw [h] at hok
      simp [Except.isOk, Except.toBool] at hok
  | ok out =>
      exact ⟨out, rfl, (returned_requirement_enums_in_range.1 [exReq] exInstr out h).1⟩

/-! ## Duplicate identifiers (C4) -/

/-- A second valid requirement dict carrying the *same* id `USR0001` as
`exReq` but a different name. -/
def exReqDup : List (String × PyVal) :=
  [("id", .vStr "USR0001"), ("name", .vStr "Clone"), ("source", .vStr "spec.pdf"),
   ("type", .vStr "Original"), ("scope", .vStr "In-Scope"),
   ("detail", .vStr "Duplicate entry."), ("priority", .vStr "High"),
   ("covered_usr", .vStr "No")]

/-- Counterexample for C4: `update_user_requirements` performs no uniqueness
check.  On a list holding two distinct records with the same `"id"` it raises
no error and silently uses the first match (`previous_version_snapshot.name`
is the first record's `"Login"`, not the second record's `"Clone"`). -/
theorem update_user_requirements_duplicate_id_counterexample :
    getKey exReq "id" = getKey exReqDup "id" ∧
    exReq ≠ exReqDup ∧
    (update_user_requirements [exReq, exReqDup] exInstr).toOption.map
        (fun out => out.previous_version_snapshot.name) = some "Login" := by
  decide

/-- C4 amended: no uniqueness check is performed; `update_user_requirements`
selects the first record (in list order) whose `"id"` matches
`requirement_id_to_update`, and behaves exactly as if that record were the
only one in the list — with duplicate ids the first match silently wins. -/
theorem update_user_requirements_first_match
    (l1 l2 : List (List (String × PyVal))) (d : List (String × PyVal))
    (instr : UpdateInstructions)
    (h1 : ∀ d' ∈ l1, matchesId d' instr.requirement_id_to_update = false)
    (h2 : matchesId d instr.requirement_id_to_update = true) :
    update_user_requirements (l1 ++ d :: l2) instr = update_user_requirements [d] instr := by
  have hnone : l1.find? (fun d' => matchesId d' instr.requirement_id_to_update) = none :=
    List.find?_eq_none.mpr fun x hx => by simp [h1 x hx]
  have hf : (l1 ++ d :: l2).find? (fun d' => matchesId d' instr.requirement_id_to_update)
      = some d := by
    rw [List.find?_append, hnone, Option.none_or,
      @List.find?_cons_of_pos _ (fun d' => matchesId d' instr.requirement_id_to_update) _ l2 h2]
  have hd : ([d] : List (List (String × PyVal))).find?
      (fun d' => matchesId d' instr.requirement_id_to_update) = some d :=
    @List.find?_cons_of_pos _ (fun d' => matchesId d' instr.requirement_id_to_update) _ [] h2
  simp only [update_user_requirements, hf, hd]

/-- A requirement dict with a different id, used as the non-matching head of
the list in the C4 witness. -/
def exReqOther : List (String × PyVal) :=
  [("id", .vStr "USR0002"), ("name", .vStr "Logout"), ("source", .vStr "spec.pdf"),
   ("type", .vStr "Original"), ("scope", .vStr "In-Scope"),
   ("detail", .vStr "User can log out."), ("priority", .vStr "Low"),
   ("covered_usr", .vStr "No")]

/-- Witness for the amended C4 at concrete inputs. -/
theorem update_user_requirements_first_match_witness :
    update_user_requirements ([exReqOther] ++ exReq :: [exReqDup]) exInstr =
      update_user_requirements [exReq] exInstr :=
  update_user_requirements_first_match [exReqOther] [exReqDup] exReq exInstr
    (by decide) (by decide)

/-! ## `generate_user_requirements` (C9) -/

/-- Counterexample for C9 as stated: `generate_user_requirements` does **not**
return a `FinalUserRequirementsOutput` for *every* input — when the
`"source_document_id"` entry is not a string (here the integer `7`), the
`Optional[str]` validation of `document_id` raises instead of returning. -/
theorem generate_user_requirements_counterexample :
    generate_user_requirements [("source_document_id", PyVal.vInt 7)] none =
      Except.error "document_id: Input should be a valid string" := rfl

/-- C9 amended: for every input whose `"source_document_id"` entry (when
present) is a string or `None`, `generate_user_requirements` returns a
`FinalUserRequirementsOutput` with an empty `requirements_list`, the fixed
placeholder `generation_summary`, and `document_id` equal to the entry
(`None` when the key is absent or `None`). -/
theorem generate_user_requirements_placeholder
    (info : List (String × PyVal)) (g : Option String)
    (h : ∀ v, getKey info "source_document_id" = some v →
         v = PyVal.vNone ∨ ∃ s, v = PyVal.vStr s) :
    ∃ out, generate_user_requirements info g = Except.ok out ∧
      out.requirements_list = [] ∧
      out.generation_summary =
        some "Placeholder: LLM to provide summary of UR generation. Ensure all UserRequirement fields are populated." ∧
      out.document_id = (match getKey info "source_document_id" with
                         | some (PyVal.vStr s) => some s
                         | _ => none) := by
  cases hg : getKey info "source_document_id" with
  | none =>
      refine ⟨⟨none, [],
        some "Placeholder: LLM to provide summary of UR generation. Ensure all UserRequirement fields are populated."⟩,
        ?_, rfl, rfl, rfl⟩
      simp [generate_user_requirements, hg, parseOptStrV]
  | some v =>
      rcases h v hg with hv | ⟨s, hv⟩
      · subst hv
        refine ⟨⟨none, [],
          some "Placeholder: LLM to provide summary of UR generation. Ensure all UserRequirement fields are populated."⟩,
          ?_, rfl, rfl, rfl⟩
        simp [generate_user_requirements, hg, parseOptStrV]
      · subst hv
        refine ⟨⟨some s, [],
          some "Placeholder: LLM to provide summary of UR generation. Ensure all UserRequirement fields are populated."⟩,
          ?_, rfl, rfl, rfl⟩
        simp [generate_user_requirements, hg, parseOptStrV, parseStrV]

/-- Witness for the amended C9 at a concrete input. -/
theorem generate_user_requirements_placeholder_witness :
    ∃ out, generate_user_requirements [("source_document_id", PyVal.vStr "doc1.pdf")] none =
        Except.ok out ∧
      out.requirements_list = [] ∧
      out.generation_summary =
        some "Placeholder: LLM to provide summary of UR generation. Ensure all UserRequirement fields are populated." ∧
      out.document_id = some "doc1.pdf" := by
  obtain ⟨out, h1, h2, h3, h4⟩ :=
    generate_user_requirements_placeholder [("source_document_id", PyVal.vStr "doc1.pdf")] none
      (by
        intro v hv
        simp [getKey] at hv
        exact Or.inr ⟨"doc1.pdf", hv.symm⟩)
  exact ⟨out, h1, h2, h3, by rw [h4]; decide⟩

/-! ## Heap frame property of `update_user_requirements` (C10) -/

theorem applyUpdatesHeap_store_other (h : Heap) (u : Nat)
    (fields : List (String × PyVal)) (a : Nat) (ha : a ≠ u) :
    (applyUpdatesHeap h u fields).store a = h.store a := by
  induction fields generalizing h with
  | nil => rfl
  | cons fv rest ih =>
      obtain ⟨g, v⟩ := fv
      by_cases hm : g ∈ model_fields
      · simp only [applyUpdatesHeap, if_pos hm]
        rw [ih]
        simp [Heap.write, ha]
      · simp only [applyUpdatesHeap, if_neg hm]
        exact ih _

/-- C10: `update_user_requirements` never mutates its input.  In the heap
model every dict object that existed before the call (every address below the
allocation bound, in particular every element of
`current_requirements_list`) holds exactly the same value afterwards, whether
the call returns or raises: the matched record is deep-copied before
validation and again before the field updates, and all writes go to the fresh
copy. -/
theorem update_user_requirements_no_mutation (h : Heap) (addrs : List Nat)
    (instr : UpdateInstructions) (a : Nat) (ha : a < h.next) :
    ((update_user_requirements_heap h addrs instr).2).store a = h.store a := by
  have hane : a ≠ h.next := Nat.ne_of_lt ha
  have hane1 : a ≠ h.next + 1 := Nat.ne_of_lt (Nat.lt_succ_of_lt ha)
  simp only [update_user_requirements_heap, Heap.alloc]
  split
  · rfl
  · split
    · simp [hane]
    · split
      · simp [hane]
      · split <;> simp [applyUpdatesHeap_store_other, hane, hane1]

/-- Witness for C10 at a concrete heap: the caller's dict at address `0` is
unchanged by a successful update. -/
theorem update_user_requirements_no_mutation_witness :
    ((update_user_requirements_heap ⟨fun _ => exReq, 1⟩ [0] exInstr).2).store 0 =
      (⟨fun _ => exReq, 1⟩ : Heap).store 0 :=
  update_user_requirements_no_mutation ⟨fun _ => exReq, 1⟩ [0] exInstr 0 (by decide)

/-! ## String-concatenation and dictionary-lookup lemmas for the loop -/

theorem string_foldl_append (l : List String) :
    ∀ a : String, l.foldl (fun r s => r ++ s) a = a ++ l.foldl (fun r s => r ++ s) "" := by
  induction l with
  | nil => intro a; simp [List.foldl]
  | cons x xs ih =>
      intro a
      simp only [List.foldl]
      rw [ih (a ++ x), ih ("" ++ x), String.empty_append, String.append_assoc]

theorem string_join_cons (s : String) (l : List String) :
    String.join (s :: l) = s ++ String.join l := by
  simp only [String.join, List.foldl]
  rw [string_foldl_append l ("" ++ s), String.empty_append]

theorem string_join_append (l1 l2 : List String) :
    String.join (l1 ++ l2) = String.join l1 ++ String.join l2 := by
  induction l1 with
  | nil => simp [String.join, List.foldl]
  | cons x xs ih =>
      simp only [List.cons_append, string_join_cons, ih, String.append_assoc]

/-- The two arms of the final `return` coincide: `"".join` of no chunks is the
empty string. -/
theorem finishDict_eq (acc : List String) :
    finishDict acc = [("extracted_text", String.join acc)] := by
  cases acc with
  | nil => rfl
  | cons x xs => rfl

theorem errDict_lookup (m : String) :
    getKey [("error", m)] "error" = some m ∧
    getKey [("error", m)] "extracted_text" = none := by
  refine ⟨by simp [getKey], ?_⟩
  simp only [getKey]
  rw [if_neg (by decide)]

/-- C5: `extract_information` surfaces every failure as an `"error"` entry of
the returned dictionary instead of letting an exception escape: a GCS URI not
starting with `gs://`, a missing project or processor id, a non-positive
`page_chunk_size`, a failed client initialization, and a `process_document`
exception whose message does not signal an out-of-range page request all
yield a dictionary with an `"error"` string and no `"extracted_text"` key. -/
theorem extract_information_error_surfaced :
    (∀ (gcs_uri : String) (project_id : Option String) (location : String)
       (processor_id : Option String) (mime_type : String) (page_chunk_size : Int)
       (clientInit : String → Option String) (svc : Nat → Nat → ChunkOutcome) (fuel : Nat),
       (pyStartsWith gcs_uri "gs://" = false ∨ project_id = none ∨ processor_id = none ∨
        page_chunk_size ≤ 0 ∨ (clientInit location).isSome = true) →
       ∃ d msg, extract_information gcs_uri project_id location processor_id mime_type
           page_chunk_size clientInit svc fuel = some d ∧
         getKey d "error" = some msg ∧ getKey d "extracted_text" = none) ∧
    (∀ (svc : Nat → Nat → ChunkOutcome) (chunkSize fuel start : Nat) (acc : List String)
       (msg : String),
       svc start (start + chunkSize - 1) = .failure msg →
       isOutOfRange msg = false →
       ∃ d m, extractLoop svc chunkSize (fuel + 1) start acc = some d ∧
         getKey d "error" = some m ∧ getKey d "extracted_text" = none) := by
  constructor
  · intro uri pid loc prid mime chunk cinit svc fuel hbad
    by_cases h1 : pid = none ∨ prid = none
    · have heq : extract_information uri pid loc prid mime chunk cinit svc fuel =
          some [("error", "Project ID or Processor ID are not configured. Please provide them as arguments or set the defaults.")] := by
        simp [extract_information, h1]
      exact ⟨_, _, heq, (errDict_lookup _).1, (errDict_lookup _).2⟩
    · by_cases h2 : pyStartsWith uri "gs://" = false
      · have heq : extract_information uri pid loc prid mime chunk cinit svc fuel =
            some [("error", "Invalid GCS URI. It must start with 'gs://'.")] := by
          simp [extract_information, h1, h2]
        exact ⟨_, _, heq, (errDict_lookup _).1, (errDict_lookup _).2⟩
      · by_cases h3 : chunk ≤ 0
        · have heq : extract_information uri pid loc prid mime chunk cinit svc fuel =
              some [("error", "page_chunk_size must be a positive integer.")] := by
            simp [extract_information, h1, h2, h3]
          exact ⟨_, _, heq, (errDict_lookup _).1, (errDict_lookup _).2⟩
        · rcases hbad with hb | hb | hb | hb | hb
          · exact absurd hb h2
          · exact absurd (Or.inl hb) h1
          · exact absurd (Or.inr hb) h1
          · exact absurd hb h3
          · obtain ⟨e, he⟩ := Option.isSome_iff_exists.mp hb
            have heq : extract_information uri pid loc prid mime chunk cinit svc fuel =
                some [("error", String.append "Failed to initialize Document AI client: " e)] := by
              simp [extract_information, h1, h2, h3, he]
            exact ⟨_, _, heq, (errDict_lookup _).1, (errDict_lookup _).2⟩
  · intro svc chunkSize fuel start acc msg hsvc hoor
    have heq : extractLoop svc chunkSize (fuel + 1) start acc =
        some [("error", String.append (String.append (String.append (String.append
          (String.append "An API error occurred during document processing for pages "
            (toString start)) "-") (toString (start + chunkSize - 1))) ": ") msg)] := by
      simp [extractLoop, hsvc, hoor]
    exact ⟨_, _, heq, (errDict_lookup _).1, (errDict_lookup _).2⟩

/-- Witness for C5: a URI without the `gs://` scheme yields an error entry. -/
theorem extract_information_error_surfaced_witness :
    ∃ d msg, extract_information "bucket/file.pdf" (some "proj") "us" (some "proc")
        "application/pdf" 14 (fun _ => none) (fun _ _ => ChunkOutcome.success "" 0) 5 =
          some d ∧
      getKey d "error" = some msg ∧ getKey d "extracted_text" = none :=
  extract_information_error_surfaced.1 "bucket/file.pdf" (some "proj") "us" (some "proc")
    "application/pdf" 14 (fun _ => none) (fun _ _ => ChunkOutcome.success "" 0) 5
    (Or.inl (by decide))

/-- C6: when `process_document` raises with a message that (case-insensitively)
contains "page range" or "out of range", the pagination loop stops at once —
for *any* oracle behaviour on later pages and any remaining fuel — and
returns, without an error entry, the text accumulated from the earlier chunks
(`acc`; the empty string when no chunk yielded text). -/
theorem extract_information_out_of_range_stops
    (svc : Nat → Nat → ChunkOutcome) (chunkSize fuel start : Nat) (acc : List String)
    (msg : String)
    (hsvc : svc start (start + chunkSize - 1) = .failure msg)
    (hoor : isOutOfRange msg = true) :
    extractLoop svc chunkSize (fuel + 1) start acc =
      some [("extracted_text", String.join acc)] := by
  simp [extractLoop, hsvc, hoor, finishDict_eq]

/-- Witness for C6: a concrete out-of-range failure returns the single
already-extracted chunk. -/
theorem extract_information_out_of_range_stops_witness :
    extractLoop (fun _ _ => ChunkOutcome.failure "Requested Page Range is invalid") 3 1 4
        ["chunk1"] = some [("extracted_text", String.join ["chunk1"])] :=
  extract_information_out_of_range_stops
    (fun _ _ => ChunkOutcome.failure "Requested Page Range is invalid") 3 0 4 ["chunk1"]
    "Requested Page Range is invalid" rfl (by decide)

/-! ## Functional correctness of the pagination loop (C7) -/

/-- Running the loop against a document script: chunk `i` (counting from the
current position) answers with text `t i` and `p i` pages; the first `K`
chunks are full (`c ≤ p i`), chunk `K` is short (`p K < c`).  The loop visits
starts `start, start + c, start + 2c, …`, appends each non-empty chunk text in
order, and stops after chunk `K`. -/
theorem extractLoop_script (svc : Nat → Nat → ChunkOutcome) (c : Nat) (hc : 0 < c) :
    ∀ (K : Nat) (t : Nat → String) (p : Nat → Nat) (start fuel : Nat) (acc : List String),
      (∀ i, i ≤ K → svc (start + i * c) (start + i * c + c - 1) = .success (t i) (p i)) →
      (∀ i, i < K → c ≤ p i) →
      p K < c →
      K < fuel →
      extractLoop svc c fuel start acc =
        some [("extracted_text",
          String.join (acc ++ ((List.range (K + 1)).map t).filter (fun s => !(s == ""))))] := by
  intro K
  induction K with
  | zero =>
      intro t p start fuel acc hsvc hcont hstop hfuel
      obtain ⟨fuel', rfl⟩ : ∃ f', fuel = f' + 1 := ⟨fuel - 1, by omega⟩
      have h0 := hsvc 0 (Nat.le_refl 0)
      simp only [Nat.zero_mul, Nat.add_zero] at h0
      by_cases ht : t 0 = ""
      · simp [extractLoop, h0, ht, hstop, finishDict_eq, List.range_succ]
      · simp [extractLoop, h0, ht, hstop, finishDict_eq, List.range_succ]
  | succ K ih =>
      intro t p start fuel acc hsvc hcont hstop hfuel
      obtain ⟨fuel', rfl⟩ : ∃ f', fuel = f' + 1 := ⟨fuel - 1, by omega⟩
      have h0 := hsvc 0 (Nat.zero_le _)
      simp only [Nat.zero_mul, Nat.add_zero] at h0
      have hp0 : c ≤ p 0 := hcont 0 (Nat.succ_pos K)
      have hpne : ¬(p 0 = 0) := by omega
      have hplt : ¬(p 0 < c) := by omega
      have hnext : start + c - 1 + 1 = start + c := by omega
      have hsvc' : ∀ i, i ≤ K → svc (start + c + i * c) (start + c + i * c + c - 1) =
          .success (t (i + 1)) (p (i + 1)) := by
        intro i hi
        have e : start + c + i * c = start + (i + 1) * c := by ring
        rw [e]
        exact hsvc (i + 1) (Nat.succ_le_succ hi)
      have hcont' : ∀ i, i < K → c ≤ p (i + 1) :=
        fun i hi => hcont (i + 1) (Nat.succ_lt_succ hi)
      have hfuel' : K < fuel' := Nat.lt_of_succ_lt_succ hfuel
      have hrange : (List.range (K + 1 + 1)).map t =
          t 0 :: (List.range (K + 1)).map (fun i => t (i + 1)) := by
        rw [List.range_succ_eq_map]
        simp [List.map_map, Function.comp]
      by_cases ht : t 0 = ""
      · have hstep : extractLoop svc c (fuel' + 1) start acc =
            extractLoop svc c fuel' (start + c) acc := by
          simp [extractLoop, h0, ht, hpne, hplt, hnext]
        rw [hstep, ih (fun i => t (i + 1)) (fun i => p (i + 1)) (start + c) fuel' acc
          hsvc' hcont' hstop hfuel', hrange]
        simp [ht]
      · have hstep : extractLoop svc c (fuel' + 1) start acc =
            extractLoop svc c fuel' (start + c) (acc ++ [t 0]) := by
          simp [extractLoop, h0, ht, hpne, hplt, hnext]
        rw [hstep, ih (fun i => t (i + 1)) (fun i => p (i + 1)) (start + c) fuel' (acc ++ [t 0])
          hsvc' hcont' hstop hfuel', hrange]
        simp [ht, List.filter_cons]

/-- C7: with valid inputs, the pagination loop requests consecutive, disjoint,
1-indexed chunks of exactly `page_chunk_size` pages — the `k`-th
`process_document` request covers pages `k*c+1 … (k+1)*c` — stops after the
first chunk that returns fewer pages than the chunk size (in particular after
one with no text and no pages), and returns under `"extracted_text"` the
concatenation, in request order, of the text of every chunk that returned
text. -/
theorem extract_information_pagination
    (gcs_uri : String) (project_id processor_id : String) (location mime_type : String)
    (clientInit : String → Option String) (svc : Nat → Nat → ChunkOutcome)
    (c K fuel : Nat) (t : Nat → String) (p : Nat → Nat)
    (huri : pyStartsWith gcs_uri "gs://" = true)
    (hcinit : clientInit location = none)
    (hc : 0 < c)
    (hsvc : ∀ i, i ≤ K → svc (i * c + 1) ((i + 1) * c) = .success (t i) (p i))
    (hcont : ∀ i, i < K → c ≤ p i)
    (hstop : p K < c)
    (hfuel : K < fuel) :
    extract_information gcs_uri (some project_id) location (some processor_id) mime_type
        (c : Int) clientInit svc fuel =
      some [("extracted_text",
        String.join (((List.range (K + 1)).map t).filter (fun s => !(s == ""))))] := by
  have hcle : ¬((c : Int) ≤ 0) := by omega
  have hreduce : extract_information gcs_uri (some project_id) location (some processor_id)
      mime_type (c : Int) clientInit svc fuel = extractLoop svc c fuel 1 [] := by
    simp [extract_information, huri, hcinit, hcle]
  rw [hreduce]
  have hsvc1 : ∀ i, i ≤ K → svc (1 + i * c) (1 + i * c + c - 1) = .success (t i) (p i) := by
    intro i hi
    have e1 : 1 + i * c = i * c + 1 := by omega
    have e2 : 1 + i * c + c - 1 = i * c + c := by omega
    have e3 : i * c + c = (i + 1) * c := by ring
    rw [e2, e3, e1]
    exact hsvc i hi
  rw [extractLoop_script svc c hc K t p 1 fuel [] hsvc1 hcont hstop hfuel]
  simp

/-- The `process_document` oracle of the C7 witness: a two-chunk document
(chunk size 2; pages 1-2 yield "abc" with 2 pages, the next chunk yields
"def" with a single page). -/
def svcW : Nat → Nat → ChunkOutcome :=
  fun s _ => if s = 1 then .success "abc" 2 else .success "def" 1

/-- Chunk texts of the C7 witness. -/
def tW : Nat → String := fun i => if i = 0 then "abc" else "def"

/-- Chunk page counts of the C7 witness. -/
def pW : Nat → Nat := fun i => if i = 0 then 2 else 1

/-- Witness for C7 at a concrete two-chunk document. -/
theorem extract_information_pagination_witness :
    extract_information "gs://bucket/file.pdf" (some "proj") "us" (some "proc")
        "application/pdf" ((2 : Nat) : Int) (fun _ => none) svcW 2 =
      some [("extracted_text",
        String.join (((List.range 2).map tW).filter (fun s => !(s == ""))))] :=
  extract_information_pagination "gs://bucket/file.pdf" "proj" "proc" "us" "application/pdf"
    (fun _ => none) svcW 2 1 2 tW pW (by decide) rfl (by decide)
    (by intro i hi; interval_cases i <;> rfl)
    (by intro i hi; interval_cases i; decide)
    (by decide) (by decide)

/-! ## Termination of the pagination loop (C8) -/

/-- Fuel bound for the loop: once enough steps have passed for the start page
to exceed `N`, and every chunk starting beyond `N` is short, the loop
finishes within the given fuel. -/
theorem extractLoop_terminates_aux (svc : Nat → Nat → ChunkOutcome) (c : Nat) (hc : 0 < c)
    (N : Nat)
    (hfin : ∀ s e, N < s → ∀ text pages, svc s e = .success text pages → pages < c) :
    ∀ (k start : Nat) (acc : List String), N < start + k * c →
      (extractLoop svc c (k + 1) start acc).isSome = true := by
  intro k
  induction k with
  | zero =>
      intro start acc hN
      simp only [Nat.zero_mul, Nat.add_zero] at hN
      cases hsv : svc start (start + c - 1) with
      | failure msg =>
          simp only [extractLoop, hsv]
          split <;> simp
      | success text pages =>
          have hlt : pages < c := hfin start _ hN _ _ hsv
          simp [extractLoop, hsv, hlt]
          split <;> simp
  | succ k ih =>
      intro start acc hN
      have hnext : start + c - 1 + 1 = start + c := by omega
      have hN' : N < start + c + k * c := by
        have e : start + (k + 1) * c = start + c + k * c := by ring
        rw [e] at hN
        exact hN
      cases hsv : svc start (start + c - 1) with
      | failure msg =>
          simp only [extractLoop, hsv]
          split <;> simp
      | success text pages =>
          simp only [extractLoop, hsv]
          split
          · simp
          · split
            · simp
            · rw [hnext]
              exact ih (start + c) _ hN'

/-- C8: every tool runs to completion.  For every finite document — a
Document AI oracle that, beyond some page count `N`, answers every request
starting past `N` with fewer than `page_chunk_size` pages or with an
out-of-range (or any other) exception — the pagination loop of
`extract_information` terminates: some finite fuel makes the call return. -/
theorem extract_information_terminates
    (gcs_uri : String) (project_id processor_id : String) (location mime_type : String)
    (clientInit : String → Option String) (svc : Nat → Nat → ChunkOutcome)
    (c N : Nat) (hc : 0 < c)
    (hfin : ∀ s e, N < s →
        (∀ text pages, svc s e = .success text pages → pages < c) ∧
        (∀ msg, svc s e = .failure msg → isOutOfRange msg = true)) :
    ∃ fuel d, extract_information gcs_uri (some project_id) location (some processor_id)
        mime_type (c : Int) clientInit svc fuel = some d := by
  by_cases huri : pyStartsWith gcs_uri "gs://" = true
  · cases hcin : clientInit location with
    | some e =>
        refine ⟨1, [("error", String.append "Failed to initialize Document AI client: " e)], ?_⟩
        have hcle : ¬((c : Int) ≤ 0) := by omega
        simp [extract_information, huri, hcle, hcin]
    | none =>
        have hcle : ¬((c : Int) ≤ 0) := by omega
        have hsome := extractLoop_terminates_aux svc c hc N
          (fun s e hs text pages hsv => (hfin s e hs).1 text pages hsv)
          (N + 1) 1 []
          (by
            have : N + 1 ≤ (N + 1) * c := Nat.le_mul_of_pos_right _ hc
            omega)
        obtain ⟨d, hd⟩ := Option.isSome_iff_exists.mp hsome
        refine ⟨N + 1 + 1, d, ?_⟩
        simp only [extract_information, huri, hcle, hcin]
        simp [hd]
  · refine ⟨1, [("error", "Invalid GCS URI. It must start with 'gs://'.")], ?_⟩
    have h2 : pyStartsWith gcs_uri "gs://" = false := by
      cases h : pyStartsWith gcs_uri "gs://" with
      | false => rfl
      | true => exact absurd h huri
    simp [extract_information, h2]

/-- Witness for C8: a document whose oracle always answers with an empty
zero-page chunk terminates. -/
theorem extract_information_terminates_witness :
    ∃ fuel d, extract_information "gs://bucket/file.pdf" (some "proj") "us" (some "proc")
        "application/pdf" ((1 : Nat) : Int) (fun _ => none)
        (fun _ _ => ChunkOutcome.success "" 0) fuel = some d :=
  extract_information_terminates "gs://bucket/file.pdf" "proj" "proc" "us" "application/pdf"
    (fun _ => none) (fun _ _ => ChunkOutcome.success "" 0) 1 0 (by decide)
    (fun s e hs =>
      ⟨fun text pages h => by cases h; decide, fun msg h => by cases h⟩)

/-- Witness for C2: on the empty list the update raises (no record matches). -/
theorem update_user_requirements_error_iff_witness :
    ∃ msg, update_user_requirements [] exInstr = Except.error msg :=
  (update_user_requirements_error_iff [] exInstr).1.mpr
    (Or.inl fun d hd => absurd hd (List.not_mem_nil d))
